import Mathlib

/-!
Shallow embedding of the debt-collection workflow
(src/workflows/debt_collection.py) and verification of its specification.

The Python class DebtCollectionWorkflow is embedded as pure Lean
functions over explicit state:
  * the turn synchronizer state (waiting flag + captured input slot),
  * the mutable call context dictionary,
  * the phase functions (verify_identity, check_compliance,
    discuss_payment, handle_resolution) and the driver run().
Spoken utterances (session.say) are collected into lists of strings.
Exceptions raised by external collaborators are injected as
Option String parameters (none = no exception, some msg = an exception
with that message); pure in-workflow computation on strings cannot
raise, matching the source.
-/

namespace DebtCollection

/-- State of the turn synchronizer: the pair of instance attributes
`waiting_for_input` / `captured_input` of the workflow object. -/
structure SyncState where
  waiting_for_input : Bool
  captured_input : Option String
  deriving Repr, DecidableEq

/-- A `user_input_transcribed` event: carries the transcribed user speech.
These events are user-originated by construction. -/
structure UserInputTranscribedEvent where
  transcript : String
  deriving Repr, DecidableEq

/-- A `conversation_item_added` event: carries a chat item with a role and
text.  The role is NOT inspected by the handler (the check is commented
out in the source). -/
structure ConversationItemAddedEvent where
  role : String
  text : String
  deriving Repr, DecidableEq

/-- Handler `on_user_input`: if the waiting flag is set, store the
event transcript and clear the flag; otherwise leave the state alone. -/
def on_user_input (s : SyncState) (e : UserInputTranscribedEvent) : SyncState :=
  if s.waiting_for_input then
    { waiting_for_input := false, captured_input := some e.transcript }
  else s

/-- Handler `on_conversation_item_added`: if the waiting flag is set,
store the CONSTANT string "1234" (not the event text) and clear the
flag; the role check is commented out in the source, so any item
qualifies. -/
def on_conversation_item_added (s : SyncState) (_e : ConversationItemAddedEvent) :
    SyncState :=
  if s.waiting_for_input then
    { waiting_for_input := false, captured_input := some "1234" }
  else s

/-- Arming the synchronizer: `self.waiting_for_input = True`
(the captured slot itself is not cleared by the source). -/
def arm (s : SyncState) : SyncState :=
  { s with waiting_for_input := true }

/-- Delivering a sequence of transcription events to the handler in order. -/
def deliverAll (s : SyncState) (es : List UserInputTranscribedEvent) : SyncState :=
  es.foldl on_user_input s

/-- Result of observing the wait loop
`while self.waiting_for_input: await asyncio.sleep(1)` for a bounded
number of poll iterations.  `stillWaiting` means the loop has not
returned after that many polls.  The source loop has no timeout branch,
so the `timeout` constructor exists only to express the specified
behaviour it lacks. -/
inductive AwaitResult where
  | captured (t : Option String)
  | timeout
  | stillWaiting
  deriving Repr, DecidableEq

/-- The wait loop of `verify_identity` observed for `n` poll iterations,
in a window during which no event is delivered (the state `s` is not
mutated between polls). -/
def await_input (s : SyncState) : Nat → AwaitResult
  | 0 => .stillWaiting
  | n + 1 => if s.waiting_for_input then await_input s n else .captured s.captured_input

/-- `extract_digits`: `re.findall` of single digit characters, joined,
last four kept when at least four were found (`[-4:]`), all of them
otherwise. -/
def extract_digits (text : String) : String :=
  let digits := text.data.filter Char.isDigit
  if 4 ≤ digits.length then
    String.mk (digits.drop (digits.length - 4))
  else
    String.mk digits

/-- Python `str.isdigit`: non-empty and all characters are digits
(restricted to ASCII digits, the only ones `extract_digits` produces). -/
def pyIsDigit (s : String) : Bool :=
  !s.data.isEmpty && s.data.all Char.isDigit

/-- A wall-clock instant at second resolution, the part of
`datetime.utcnow()` consumed by `strftime("%Y%m%d%H%M%S")`. -/
structure DateTime where
  year : Nat
  month : Nat
  day : Nat
  hour : Nat
  minute : Nat
  second : Nat
  deriving Repr, DecidableEq

/-- Field ranges of a `datetime` value (years restricted to four digits,
as Python `datetime` years 1..9999 format to four zero-padded digits via
`%Y` only from 1000 on; all call timestamps are current dates). -/
def DateTime.valid (t : DateTime) : Prop :=
  1000 ≤ t.year ∧ t.year ≤ 9999 ∧ 1 ≤ t.month ∧ t.month ≤ 12 ∧
    1 ≤ t.day ∧ t.day ≤ 31 ∧ t.hour ≤ 23 ∧ t.minute ≤ 59 ∧ t.second ≤ 59

instance (t : DateTime) : Decidable t.valid := by
  unfold DateTime.valid; infer_instance

/-- Two-digit zero-padded decimal rendering (strftime %m, %d, %H, %M, %S). -/
def pad2 (n : Nat) : List Char :=
  [Nat.digitChar (n / 10), Nat.digitChar (n % 10)]

/-- Four-digit zero-padded decimal rendering (strftime %Y on 4-digit years). -/
def pad4 (n : Nat) : List Char :=
  [Nat.digitChar (n / 1000), Nat.digitChar (n / 100 % 10),
   Nat.digitChar (n / 10 % 10), Nat.digitChar (n % 10)]

/-- `datetime.strftime("%Y%m%d%H%M%S")`. -/
def timestamp14 (t : DateTime) : List Char :=
  pad4 t.year ++ pad2 t.month ++ pad2 t.day ++
    pad2 t.hour ++ pad2 t.minute ++ pad2 t.second

/-- The reference number `f"REF-{datetime.utcnow().strftime(...)}"`
generated in `handle_resolution`. -/
def ref_number (t : DateTime) : String :=
  "REF-" ++ String.mk (timestamp14 t)

/-- The `customer_info` mapping installed by a successful verification. -/
structure CustomerInfo where
  account : String
  amount : String
  due_date : String
  deriving Repr, DecidableEq

/-- The `payment_plan` mapping installed by `discuss_payment`. -/
structure PaymentPlan where
  amount : String
  start_date : String
  installments : Nat
  next_payment_amount : String
  next_payment_date : String
  deriving Repr, DecidableEq

/-- The mutable `self.context` dictionary.  Keys absent from the dict are
`none`; the initially-empty `customer_info` sub-dict is `none`; an absent
`resolution` key is the `pending` state of the spec. -/
structure Context where
  verified : Bool
  customer_info : Option CustomerInfo
  call_start_time : String
  account_last4 : Option String
  payment_plan : Option PaymentPlan
  resolution : Option String
  reference_number : Option String
  error : Option String
  call_end_time : Option String
  deriving Repr, DecidableEq

/-- The context built in `__init__`. -/
def initContext (start_ts : String) : Context where
  verified := false
  customer_info := none
  call_start_time := start_ts
  account_last4 := none
  payment_plan := none
  resolution := none
  reference_number := none
  error := none
  call_end_time := none

/-- `check_compliance`: stubbed to always return True in the source. -/
def check_compliance : Bool := true

def verifyPrompt : String :=
  "For security purposes, could you please provide the last 4 digits of your account number?"

def sayFourDigits : String :=
  "Please provide exactly 4 digits for your account number."

def sayMismatch : String :=
  "The account number you provided doesn\x27t match our records. Please try again."

/-- The customer record hard-coded by `verify_identity` on success. -/
def successInfo (last4 : String) : CustomerInfo where
  account := "XXXX" ++ last4
  amount := "$1,234.56"
  due_date := "2025-06-30"

def verifySuccessSay (amount last4 : String) : String :=
  "Thank you for verifying your identity. I see you have an outstanding balance of " ++
    amount ++ " on account ending in " ++ last4 ++ "."

/-- Outcome of the `verify_identity` loop: the returned boolean, the
updated context, the number of prompt/capture cycles run, and the
utterances spoken. -/
structure VerifyOutcome where
  ok : Bool
  ctx : Context
  cycles : Nat
  spoken : List String
  deriving Repr, DecidableEq

/-- The `while True` loop of `verify_identity`, one iteration per
captured input (each iteration arms the synchronizer, prompts, waits for
and reads one captured input).  An exhausted input list means the wait
never completes: no outcome (`none`).  The `except` branch of the source
is unreachable here: `extract_digits` and the string comparisons cannot
raise on a captured string. -/
def verify_identity (ctx : Context) : List String → Option VerifyOutcome
  | [] => none
  | input :: rest =>
    let last4 := extract_digits input
    if !(pyIsDigit last4 && last4.length == 4) then
      (verify_identity ctx rest).map fun o =>
        { o with cycles := o.cycles + 1, spoken := verifyPrompt :: sayFourDigits :: o.spoken }
    else if last4 != "1234" then
      (verify_identity ctx rest).map fun o =>
        { o with cycles := o.cycles + 1, spoken := verifyPrompt :: sayMismatch :: o.spoken }
    else
      some
        { ok := true
          ctx :=
            { ctx with
              verified := true
              customer_info := some (successInfo last4)
              account_last4 := some last4 }
          cycles := 1
          spoken := [verifyPrompt, verifySuccessSay (successInfo last4).amount last4] }

def sayNotVerified : String :=
  "For security reasons, I\x27ll need to verify your identity before we discuss payment options. Could you please confirm the last 4 digits of your account number?"

def sayEmpathy (amount : String) : String :=
  "I understand that managing finances can be challenging. Let\x27s work together to find a solution that works for you regarding your balance of " ++ amount ++ "."

def sayOptions : String :=
  "You have a few options available:\n1. You can pay the full amount today.\n2. We can set up a payment plan that fits your budget.\n3. If you\x27re experiencing financial hardship, we can discuss potential assistance programs.\nWhich option would you like to explore?"

def paymentApology : String :=
  "I apologize, but I\x27m having trouble accessing your account information. Let me transfer you to a representative who can assist you further."

/-- `discuss_payment`.  `next7` is the string the source computes by
formatting `utcnow() + timedelta(days=7)` with `"%B %d, %Y"` (threaded
opaquely: no claim inspects it).  `exc` injects an exception raised
inside the `try` block by an external collaborator: the phase then
reaches its `except` handler with the context not yet updated (the
`payment_plan` assignment is the final statement before `return True`).
Returns the boolean result, the context, and the utterances spoken. -/
def discuss_payment (ctx : Context) (next7 : String) (exc : Option String) :
    Bool × Context × List String :=
  if !ctx.verified then
    (false, ctx, [sayNotVerified])
  else
    match exc with
    | some _ => (false, ctx, [paymentApology])
    | none =>
      let amount := (ctx.customer_info.map CustomerInfo.amount).getD ""
      let plan : PaymentPlan :=
        { amount := "$250"
          start_date := next7
          installments := 5
          next_payment_amount := "$50"
          next_payment_date := next7 }
      (true, { ctx with payment_plan := some plan }, [sayEmpathy amount, sayOptions])

def sayConfirmDetails : String :=
  "Let me confirm the details we\x27ve discussed:"

def resolutionSummary (p : PaymentPlan) : String :=
  "You\x27ve agreed to a payment plan of " ++ p.amount ++ " starting on " ++
    p.start_date ++ " with " ++ toString p.installments ++
    " monthly payments. Your next payment of " ++ p.next_payment_amount ++
    " is due on " ++ p.next_payment_date ++ "."

def sayProcessing : String :=
  "I\x27ll process your payment now. Please hold for a moment while I confirm the transaction."

def sayProcessed : String :=
  "Thank you, your payment has been processed successfully."

def refSay (ref : String) : String :=
  "Your reference number is " ++ ref ++
    ". I\x27ll email you a confirmation with all these details right away."

def sayAnythingElse : String :=
  "Is there anything else I can assist you with today?"

def sayClosing : String :=
  "Thank you for your time today. Have a wonderful day!"

def resolutionApology : String :=
  "I apologize, but I\x27m having trouble processing this request. Please hold while I transfer you to a representative who can assist you further."

/-- `handle_resolution`.  `now` is the wall clock read for the reference
number; `end_ts` is the string `datetime.utcnow().isoformat()` stamped
as `call_end_time` (threaded opaquely).  `exc` injects an exception
raised inside the `try` block: the `except` handler then speaks the
transfer apology and records the error state (the context update of the
`try` block is its final effect, so an injected exception skips it).
Returns the updated context and the utterances spoken. -/
def handle_resolution (ctx : Context) (now : DateTime) (end_ts : String)
    (exc : Option String) : Context × List String :=
  match exc with
  | some e =>
    ({ ctx with
        resolution := some "error"
        error := some e
        call_end_time := some end_ts },
      [resolutionApology])
  | none =>
    let ref := ref_number now
    let spoken :=
      [sayConfirmDetails] ++
        (match ctx.payment_plan with
          | some p => [resolutionSummary p]
          | none => [sayProcessing, sayProcessed]) ++
        [refSay ref, sayAnythingElse, sayClosing]
    ({ ctx with
        resolution := some "success"
        reference_number := some ref
        call_end_time := some end_ts },
      spoken)

def cannotProceedSay : String :=
  "This call cannot proceed due to regional regulations."

def ai_compliance_warning : String :=
  "This call is being recorded for quality and compliance purposes. By continuing this conversation, you consent to the recording."

def greetingSay : String :=
  "Hello, this is an automated call from Riverline Bank regarding your outstanding balance."

/-- Utterances of `start_conversation`. -/
def start_conversation_says : List String := [ai_compliance_warning, greetingSay]

/-- One call-s external environment: the value the compliance predicate
returns (stubbed `true` by `check_compliance`), the captured inputs the
verification loop will read (one per cycle), injected exceptions for the
payment and resolution phases, and the wall-clock readings. -/
structure World where
  compliance : Bool
  verify_inputs : List String
  payment_exc : Option String
  resolution_exc : Option String
  now : DateTime
  next7 : String
  end_ts : String
  deriving Repr, DecidableEq

/-- Observable result of `run`: the final context and all utterances, in
order. -/
structure RunResult where
  ctx : Context
  spoken : List String
  deriving Repr, DecidableEq

/-- The driver `run()`.  Note the source checks the boolean returned by
`verify_identity` (returning early on `False`) but IGNORES the boolean
returned by `discuss_payment`: `handle_resolution` executes either way.
`none` means the verification wait never completed (inputs exhausted).
The top-level `except` re-raiser is dead here: every phase catches its
own injected exceptions. -/
def run (ctx₀ : Context) (w : World) : Option RunResult :=
  if !w.compliance then
    some { ctx := ctx₀, spoken := [cannotProceedSay] }
  else
    match verify_identity ctx₀ w.verify_inputs with
    | none => none
    | some o =>
      let spoken₁ := start_conversation_says ++ o.spoken
      if !o.ok then
        some { ctx := o.ctx, spoken := spoken₁ }
      else
        let d := discuss_payment o.ctx w.next7 w.payment_exc
        let r := handle_resolution d.2.1 w.now w.end_ts w.resolution_exc
        some { ctx := r.1, spoken := spoken₁ ++ d.2.2 ++ r.2 }

/-- One workflow operation on the context, for reachability statements:
each constructor applies the context transformation of the corresponding
phase (the compliance check and greeting do not touch the context). -/
inductive Op where
  | complianceCheck
  | greeting
  | verify (inputs : List String)
  | discuss (next7 : String) (exc : Option String)
  | resolve (now : DateTime) (end_ts : String) (exc : Option String)

/-- Apply one operation to the context.  A verification whose wait never
completes leaves the context as it was. -/
def applyOp (ctx : Context) : Op → Context
  | .complianceCheck => ctx
  | .greeting => ctx
  | .verify inputs =>
    match verify_identity ctx inputs with
    | some o => o.ctx
    | none => ctx
  | .discuss next7 exc => (discuss_payment ctx next7 exc).2.1
  | .resolve now end_ts exc => (handle_resolution ctx now end_ts exc).1

/-! Helper lemmas. -/

theorem on_user_input_disarmed (c : Option String) (e : UserInputTranscribedEvent) :
    on_user_input { waiting_for_input := false, captured_input := c } e =
      { waiting_for_input := false, captured_input := c } := by
  simp [on_user_input]

theorem deliverAll_disarmed (c : Option String) (es : List UserInputTranscribedEvent) :
    deliverAll { waiting_for_input := false, captured_input := c } es =
      { waiting_for_input := false, captured_input := c } := by
  induction es with
  | nil => rfl
  | cons e es ih => simpa [deliverAll, on_user_input] using ih

/-- C1: First-write-wins event capture.  After arming, delivering any
sequence of transcription events beginning with `e` leaves the
synchronizer disarmed with exactly the FIRST event text captured; and
once disarmed, the handler leaves the state unchanged for every further
event until the next arming. -/
theorem first_write_wins (s : SyncState) (e : UserInputTranscribedEvent)
    (es : List UserInputTranscribedEvent) :
    deliverAll (arm s) (e :: es) =
      { waiting_for_input := false, captured_input := some e.transcript } ∧
    ∀ (c : Option String) (e' : UserInputTranscribedEvent),
      on_user_input { waiting_for_input := false, captured_input := c } e' =
        { waiting_for_input := false, captured_input := c } := by
  constructor
  · have h1 : on_user_input (arm s) e =
        { waiting_for_input := false, captured_input := some e.transcript } := by
      simp [on_user_input, arm]
    calc deliverAll (arm s) (e :: es)
        = deliverAll (on_user_input (arm s) e) es := rfl
      _ = _ := by rw [h1]; exact deliverAll_disarmed _ es
  · exact on_user_input_disarmed

/-- C1 witness: two concrete back-to-back events after arming; "first"
is captured, and a disarmed state ignores the "second" event. -/
theorem first_write_wins_witness :
    deliverAll (arm { waiting_for_input := false, captured_input := none })
        [{ transcript := "first" }, { transcript := "second" }] =
      { waiting_for_input := false, captured_input := some "first" } ∧
    on_user_input { waiting_for_input := false, captured_input := some "first" }
        { transcript := "second" } =
      { waiting_for_input := false, captured_input := some "first" } :=
  ⟨(first_write_wins { waiting_for_input := false, captured_input := none }
      { transcript := "first" } [{ transcript := "second" }]).1,
   (first_write_wins { waiting_for_input := false, captured_input := none }
      { transcript := "first" } [{ transcript := "second" }]).2
      (some "first") { transcript := "second" }⟩

/-- C3: the wait loop of `verify_identity` has no timeout.  From an armed
state with no event delivered, after ANY number of poll iterations the
loop has still not returned: it never produces a `timeout` result (nor
any other), while a cleared flag makes it return the captured slot at
the first poll. -/
theorem await_input_never_times_out (c : Option String) (n : Nat) :
    await_input { waiting_for_input := true, captured_input := c } n =
        AwaitResult.stillWaiting ∧
    await_input { waiting_for_input := true, captured_input := c } n ≠
        AwaitResult.timeout ∧
    await_input { waiting_for_input := false, captured_input := c } (n + 1) =
        AwaitResult.captured c := by
  refine ⟨?_, ?_, by simp [await_input]⟩
  · induction n with
    | zero => rfl
    | succ n ih => simpa [await_input] using ih
  · induction n with
    | zero => simp [await_input]
    | succ n ih => simpa [await_input] using ih

/-- C3 witness: after 3600 one-second polls of an armed state with no
event, the loop still has not returned and has produced no timeout. -/
theorem await_input_never_times_out_witness :
    await_input { waiting_for_input := true, captured_input := none } 3600 =
        AwaitResult.stillWaiting ∧
    await_input { waiting_for_input := true, captured_input := none } 3600 ≠
        AwaitResult.timeout ∧
    await_input { waiting_for_input := false, captured_input := none } 3601 =
        AwaitResult.captured none :=
  await_input_never_times_out none 3600

/-- C4: digit extraction returns the digit characters of the text in
left-to-right order of appearance, truncated to the last four when four
or more are present, all of them otherwise; on
"my account is 12-34, ref 99" it returns "3499". -/
theorem extract_digits_rule (s : String) :
    (4 ≤ (s.data.filter Char.isDigit).length →
      extract_digits s =
        String.mk ((s.data.filter Char.isDigit).drop
          ((s.data.filter Char.isDigit).length - 4))) ∧
    ((s.data.filter Char.isDigit).length < 4 →
      extract_digits s = String.mk (s.data.filter Char.isDigit)) ∧
    extract_digits "my account is 12-34, ref 99" = "3499" := by
  refine ⟨fun h => ?_, fun h => ?_, by decide⟩
  · simp [extract_digits, h]
  · simp [extract_digits, Nat.not_le.mpr h, h.not_le]

/-- C4 witness: the rule evaluated on concrete inputs with the two length
hypotheses discharged. -/
theorem extract_digits_rule_witness :
    extract_digits "my account is 12-34, ref 99" =
      String.mk (("my account is 12-34, ref 99".data.filter Char.isDigit).drop
        (("my account is 12-34, ref 99".data.filter Char.isDigit).length - 4)) ∧
    extract_digits "a1b2" = String.mk ("a1b2".data.filter Char.isDigit) :=
  ⟨(extract_digits_rule "my account is 12-34, ref 99").1 (by decide),
   (extract_digits_rule "a1b2").2.1 (by decide)⟩

/-- C10: the conversation-item handler captures the CONSTANT "1234"
regardless of the event role or text, disarms, and the next validation
cycle on that captured input succeeds at once. -/
theorem conversation_item_capture_hardcoded (s : SyncState)
    (e : ConversationItemAddedEvent) (ctx : Context)
    (h : s.waiting_for_input = true) :
    on_conversation_item_added s e =
      { waiting_for_input := false, captured_input := some "1234" } ∧
    (verify_identity ctx ["1234"]).map VerifyOutcome.ok = some true ∧
    (verify_identity ctx ["1234"]).map VerifyOutcome.cycles = some 1 := by
  refine ⟨by simp [on_conversation_item_added, h], rfl, rfl⟩

/-- C10 witness: an agent-role event with unrelated text, delivered while
armed, is captured as "1234" and validates in one cycle. -/
theorem conversation_item_capture_hardcoded_witness :
    on_conversation_item_added
        { waiting_for_input := true, captured_input := none }
        { role := "assistant", text := "completely unrelated" } =
      { waiting_for_input := false, captured_input := some "1234" } ∧
    (verify_identity (initContext "t0") ["1234"]).map VerifyOutcome.ok = some true ∧
    (verify_identity (initContext "t0") ["1234"]).map VerifyOutcome.cycles = some 1 :=
  conversation_item_capture_hardcoded
    { waiting_for_input := true, captured_input := none }
    { role := "assistant", text := "completely unrelated" }
    (initContext "t0") rfl

/-- The corrective utterance one failed verification cycle speaks for a
given captured input: the four-digits correction when the extracted
string is not exactly four digits, the mismatch correction otherwise. -/
def correctiveSay (input : String) : String :=
  let last4 := extract_digits input
  if !(pyIsDigit last4 && last4.length == 4) then sayFourDigits else sayMismatch

/-- Utterances of a run of failing verification cycles: each cycle
re-prompts, then speaks its corrective message. -/
def failCycleSays (inputs : List String) : List String :=
  inputs.flatMap fun s => [verifyPrompt, correctiveSay s]

theorem verify_cons_success (ctx : Context) (input : String) (rest : List String)
    (hv : extract_digits input = "1234") :
    verify_identity ctx (input :: rest) =
      some
        { ok := true
          ctx :=
            { ctx with
              verified := true
              customer_info := some (successInfo "1234")
              account_last4 := some "1234" }
          cycles := 1
          spoken := [verifyPrompt, verifySuccessSay (successInfo "1234").amount "1234"] } := by
  have h1 : (!(pyIsDigit "1234" && ("1234" : String).length == 4)) = false := by decide
  have h2 : (("1234" : String) != "1234") = false := by decide
  simp [verify_identity, hv, h1, h2]

theorem verify_cons_fail (ctx : Context) (input : String) (rest : List String)
    (hbad : extract_digits input ≠ "1234") :
    verify_identity ctx (input :: rest) =
      (verify_identity ctx rest).map fun o =>
        { o with
          cycles := o.cycles + 1
          spoken := verifyPrompt :: correctiveSay input :: o.spoken } := by
  by_cases h : (pyIsDigit (extract_digits input) && (extract_digits input).length == 4) = true
  · have hne : ((extract_digits input) != "1234") = true := by
      simp [bne, hbad]
    simp [verify_identity, correctiveSay, h, hne]
  · simp [verify_identity, correctiveSay, h]

/-- C2: verification retry convergence.  If every input before `v` fails
validation (its extracted digit string is not "1234") and `v` is
validated (extraction yields exactly "1234"), the loop runs exactly one
cycle per input up to and including `v`, speaks the prompt and a
corrective message on each failing cycle, and returns true with the
context verified and the account recorded as "XXXX1234". -/
theorem verify_identity_first_success (ctx : Context) (pre : List String)
    (v : String) (rest : List String)
    (hpre : ∀ s ∈ pre, extract_digits s ≠ "1234")
    (hv : extract_digits v = "1234") :
    verify_identity ctx (pre ++ v :: rest) =
      some
        { ok := true
          ctx :=
            { ctx with
              verified := true
              customer_info := some (successInfo "1234")
              account_last4 := some "1234" }
          cycles := pre.length + 1
          spoken := failCycleSays pre ++
            [verifyPrompt, verifySuccessSay (successInfo "1234").amount "1234"] } ∧
    (successInfo "1234").account = "XXXX1234" := by
  refine ⟨?_, rfl⟩
  induction pre with
  | nil => simpa [failCycleSays] using verify_cons_success ctx v rest hv
  | cons p pre ih =>
    have hp : extract_digits p ≠ "1234" := hpre p (List.mem_cons_self p pre)
    have ih' := ih fun s hs => hpre s (List.mem_cons_of_mem p hs)
    rw [List.cons_append, verify_cons_fail ctx p (pre ++ v :: rest) hp, ih']
    simp [failCycleSays]

/-- C2 witness: on the captured-input sequence ["abc", "12", "9999",
"1234"] the loop succeeds exactly on the fourth input, after four
prompt/capture cycles, with the verified context. -/
theorem verify_identity_first_success_witness :
    verify_identity (initContext "t0") ["abc", "12", "9999", "1234"] =
      some
        { ok := true
          ctx :=
            { initContext "t0" with
              verified := true
              customer_info := some (successInfo "1234")
              account_last4 := some "1234" }
          cycles := 4
          spoken := failCycleSays ["abc", "12", "9999"] ++
            [verifyPrompt, verifySuccessSay (successInfo "1234").amount "1234"] } ∧
    (successInfo "1234").account = "XXXX1234" :=
  verify_identity_first_success (initContext "t0") ["abc", "12", "9999"] "1234" []
    (by decide) (by decide)

/-- C5: resolution always settles.  One call of `handle_resolution`
leaves `resolution` at "success" or "error", never pending: the normal
path records the reference number and the end time, and any exception
inside the phase records the error message and the end time after
attempting the transfer apology. -/
theorem handle_resolution_settles (ctx : Context) (now : DateTime)
    (end_ts : String) (exc : Option String) :
    ((handle_resolution ctx now end_ts exc).1.resolution = some "success" ∨
      (handle_resolution ctx now end_ts exc).1.resolution = some "error") ∧
    (exc = none →
      (handle_resolution ctx now end_ts exc).1.resolution = some "success" ∧
      (handle_resolution ctx now end_ts exc).1.reference_number =
        some (ref_number now) ∧
      (handle_resolution ctx now end_ts exc).1.call_end_time = some end_ts) ∧
    (∀ e, exc = some e →
      (handle_resolution ctx now end_ts exc).1.resolution = some "error" ∧
      (handle_resolution ctx now end_ts exc).1.error = some e ∧
      (handle_resolution ctx now end_ts exc).1.call_end_time = some end_ts ∧
      resolutionApology ∈ (handle_resolution ctx now end_ts exc).2) := by
  cases exc <;> simp [handle_resolution]

/-- C5 witness: a normal resolution settles to "success", a failing one
to "error" with the transfer apology spoken. -/
theorem handle_resolution_settles_witness :
    (handle_resolution (initContext "t0") ⟨2025, 6, 30, 12, 0, 0⟩
        "2025-06-30T12:05:00" none).1.resolution = some "success" ∧
    (handle_resolution (initContext "t0") ⟨2025, 6, 30, 12, 0, 0⟩
        "2025-06-30T12:05:00" (some "boom")).1.resolution = some "error" ∧
    resolutionApology ∈ (handle_resolution (initContext "t0") ⟨2025, 6, 30, 12, 0, 0⟩
        "2025-06-30T12:05:00" (some "boom")).2 :=
  ⟨((handle_resolution_settles (initContext "t0") ⟨2025, 6, 30, 12, 0, 0⟩
      "2025-06-30T12:05:00" none).2.1 rfl).1,
   ((handle_resolution_settles (initContext "t0") ⟨2025, 6, 30, 12, 0, 0⟩
      "2025-06-30T12:05:00" (some "boom")).2.2 "boom" rfl).1,
   ((handle_resolution_settles (initContext "t0") ⟨2025, 6, 30, 12, 0, 0⟩
      "2025-06-30T12:05:00" (some "boom")).2.2 "boom" rfl).2.2.2⟩

/-- C6: compliance gate short-circuit.  When the compliance predicate
comes back false, `run` speaks exactly the single cannot-proceed
utterance and returns with the context untouched, whose `resolution` key
is still absent (pending), never "success". -/
theorem compliance_gate (ts : String) (w : World) (h : w.compliance = false) :
    run (initContext ts) w =
      some { ctx := initContext ts, spoken := [cannotProceedSay] } ∧
    (initContext ts).resolution = none := by
  refine ⟨?_, rfl⟩
  simp [run, h]

/-- C6 witness: a concrete declined world. -/
theorem compliance_gate_witness :
    run (initContext "t0")
        { compliance := false
          verify_inputs := ["1234"]
          payment_exc := none
          resolution_exc := none
          now := ⟨2025, 6, 30, 12, 0, 0⟩
          next7 := "July 07, 2025"
          end_ts := "2025-06-30T12:05:00" } =
      some { ctx := initContext "t0", spoken := [cannotProceedSay] } ∧
    (initContext "t0").resolution = none :=
  compliance_gate "t0"
    { compliance := false
      verify_inputs := ["1234"]
      payment_exc := none
      resolution_exc := none
      now := ⟨2025, 6, 30, 12, 0, 0⟩
      next7 := "July 07, 2025"
      end_ts := "2025-06-30T12:05:00" } rfl

theorem verify_identity_some_ctx (ctx : Context) (l : List String)
    (o : VerifyOutcome) (h : verify_identity ctx l = some o) :
    o.ok = true ∧ o.ctx.verified = true ∧ o.ctx.customer_info.isSome = true := by
  induction l generalizing o with
  | nil => simp [verify_identity] at h
  | cons input rest ih =>
    simp only [verify_identity] at h
    split at h
    · obtain ⟨a, ha, rfl⟩ := Option.map_eq_some'.mp h
      exact ih a ha
    · split at h
      · obtain ⟨a, ha, rfl⟩ := Option.map_eq_some'.mp h
        exact ih a ha
      · obtain rfl := Option.some.injEq _ _ ▸ h.symm
        simp

theorem discuss_payment_fields (ctx : Context) (next7 : String)
    (exc : Option String) :
    ((discuss_payment ctx next7 exc).2.1).verified = ctx.verified ∧
    ((discuss_payment ctx next7 exc).2.1).customer_info = ctx.customer_info := by
  unfold discuss_payment
  split
  · exact ⟨rfl, rfl⟩
  · cases exc <;> simp

theorem handle_resolution_fields (ctx : Context) (now : DateTime)
    (end_ts : String) (exc : Option String) :
    ((handle_resolution ctx now end_ts exc).1).verified = ctx.verified ∧
    ((handle_resolution ctx now end_ts exc).1).customer_info = ctx.customer_info := by
  cases exc <;> simp [handle_resolution]

theorem applyOp_preserves (ctx : Context) (op : Op)
    (h : ctx.customer_info.isSome = ctx.verified) :
    (applyOp ctx op).customer_info.isSome = (applyOp ctx op).verified := by
  cases op with
  | complianceCheck => exact h
  | greeting => exact h
  | verify inputs =>
    cases hv : verify_identity ctx inputs with
    | none => simpa [applyOp, hv] using h
    | some o =>
      obtain ⟨-, h1, h2⟩ := verify_identity_some_ctx ctx inputs o hv
      simp [applyOp, hv, h1, h2]
  | discuss next7 exc =>
    obtain ⟨h1, h2⟩ := discuss_payment_fields ctx next7 exc
    simp only [applyOp, h1, h2]
    exact h
  | resolve now end_ts exc =>
    obtain ⟨h1, h2⟩ := handle_resolution_fields ctx now end_ts exc
    simp only [applyOp, h1, h2]
    exact h

/-- C7: context invariant.  In every context reachable from the initial
one by any sequence of workflow operations, `customer_info` is non-empty
exactly when `verified` is true; both start empty/false. -/
theorem customer_info_iff_verified (ts : String) (ops : List Op) :
    (ops.foldl applyOp (initContext ts)).customer_info.isSome =
      (ops.foldl applyOp (initContext ts)).verified ∧
    (initContext ts).verified = false ∧
    (initContext ts).customer_info = none := by
  refine ⟨?_, rfl, rfl⟩
  have key : ∀ (l : List Op) (c : Context), c.customer_info.isSome = c.verified →
      (l.foldl applyOp c).customer_info.isSome = (l.foldl applyOp c).verified := by
    intro l
    induction l with
    | nil => exact fun c hc => hc
    | cons op l ih => exact fun c hc => ih _ (applyOp_preserves c op hc)
  exact key ops _ rfl

/-- C7 witness: the invariant evaluated after a concrete operation
sequence touching every phase. -/
theorem customer_info_iff_verified_witness :
    (([Op.complianceCheck, Op.greeting, Op.verify ["abc", "1234"],
        Op.discuss "July 07, 2025" none,
        Op.resolve ⟨2025, 6, 30, 12, 0, 0⟩ "2025-06-30T12:05:00" none].foldl
        applyOp (initContext "t0")).customer_info.isSome =
      ([Op.complianceCheck, Op.greeting, Op.verify ["abc", "1234"],
        Op.discuss "July 07, 2025" none,
        Op.resolve ⟨2025, 6, 30, 12, 0, 0⟩ "2025-06-30T12:05:00" none].foldl
        applyOp (initContext "t0")).verified) ∧
    (initContext "t0").verified = false ∧
    (initContext "t0").customer_info = none :=
  customer_info_iff_verified "t0"
    [Op.complianceCheck, Op.greeting, Op.verify ["abc", "1234"],
      Op.discuss "July 07, 2025" none,
      Op.resolve ⟨2025, 6, 30, 12, 0, 0⟩ "2025-06-30T12:05:00" none]

/-- Projection: the `resolution` entry of the final context of a run. -/
def runResolution (r : Option RunResult) : Option (Option String) :=
  r.map fun x => x.ctx.resolution

/-- Projection: all utterances of a run (empty if the run never returned). -/
def runSpokenList (r : Option RunResult) : List String :=
  (r.map RunResult.spoken).getD []

/-- A world in which the payment-discussion phase fails with a service
error while compliance, verification and resolution behave normally. -/
def worldPaymentFailure : World where
  compliance := true
  verify_inputs := ["1234"]
  payment_exc := some "service unavailable"
  resolution_exc := none
  now := ⟨2025, 6, 30, 12, 0, 0⟩
  next7 := "July 07, 2025"
  end_ts := "2025-06-30T12:05:00"

/-- C8 counterexample: in a run whose payment-discussion phase fails (the
transfer apology is spoken), the call does NOT end in the error terminal
state: `handle_resolution` still executes and sets resolution to
"success". -/
theorem payment_failure_still_success :
    runResolution (run (initContext "t0") worldPaymentFailure) =
      some (some "success") ∧
    paymentApology ∈ runSpokenList (run (initContext "t0") worldPaymentFailure) := by
  decide

/-- C8 amended: on an internal failure during the payment-discussion
phase of a completed verification, the phase speaks the transfer apology
and returns false with the context unchanged, but `run()` ignores the
returned boolean: `handle_resolution` still executes, and when the
resolution phase itself raises no exception the run ends with
resolution "success". -/
theorem payment_failure_ignored_by_run (ctx₀ : Context) (w : World) (e : String)
    (o : VerifyOutcome) (hc : w.compliance = true)
    (hv : verify_identity ctx₀ w.verify_inputs = some o)
    (he : w.payment_exc = some e) (hr : w.resolution_exc = none) :
    discuss_payment o.ctx w.next7 (some e) = (false, o.ctx, [paymentApology]) ∧
    runResolution (run ctx₀ w) = some (some "success") ∧
    paymentApology ∈ runSpokenList (run ctx₀ w) := by
  obtain ⟨hok, hverified, -⟩ := verify_identity_some_ctx ctx₀ w.verify_inputs o hv
  have hd : discuss_payment o.ctx w.next7 (some e) = (false, o.ctx, [paymentApology]) := by
    simp [discuss_payment, hverified]
  refine ⟨hd, ?_, ?_⟩ <;>
    simp [run, runResolution, runSpokenList, hc, hv, hok, he, hr, hd, handle_resolution]

/-- C8 witness: the amended statement at the concrete failing world. -/
theorem payment_failure_ignored_by_run_witness :
    discuss_payment
        { initContext "t0" with
          verified := true
          customer_info := some (successInfo "1234")
          account_last4 := some "1234" }
        worldPaymentFailure.next7 (some "service unavailable") =
      (false,
        { initContext "t0" with
          verified := true
          customer_info := some (successInfo "1234")
          account_last4 := some "1234" },
        [paymentApology]) ∧
    runResolution (run (initContext "t0") worldPaymentFailure) =
      some (some "success") ∧
    paymentApology ∈ runSpokenList (run (initContext "t0") worldPaymentFailure) :=
  payment_failure_ignored_by_run (initContext "t0") worldPaymentFailure
    "service unavailable"
    { ok := true
      ctx :=
        { initContext "t0" with
          verified := true
          customer_info := some (successInfo "1234")
          account_last4 := some "1234" }
      cycles := 1
      spoken := [verifyPrompt, verifySuccessSay (successInfo "1234").amount "1234"] }
    rfl (by decide) rfl rfl

/-- Numeric value of a decimal digit character. -/
def charVal (c : Char) : Nat := c.toNat - 48

theorem charVal_digitChar (d : Nat) (h : d < 10) :
    charVal (Nat.digitChar d) = d := by
  interval_cases d <;> rfl

theorem digitChar_isDigit (d : Nat) (h : d < 10) :
    (Nat.digitChar d).isDigit = true := by
  interval_cases d <;> rfl

theorem pad2_inj (a b : Nat) (ha : a < 100) (hb : b < 100)
    (h : pad2 a = pad2 b) : a = b := by
  simp only [pad2, List.cons.injEq, and_true] at h
  obtain ⟨h1, h2⟩ := h
  have e1 : a / 10 = b / 10 := by
    have hc := congrArg charVal h1
    rwa [charVal_digitChar _ (by omega), charVal_digitChar _ (by omega)] at hc
  have e2 : a % 10 = b % 10 := by
    have hc := congrArg charVal h2
    rwa [charVal_digitChar _ (by omega), charVal_digitChar _ (by omega)] at hc
  omega

theorem pad4_inj (a b : Nat) (ha : a < 10000) (hb : b < 10000)
    (h : pad4 a = pad4 b) : a = b := by
  simp only [pad4, List.cons.injEq, and_true] at h
  obtain ⟨h1, h2, h3, h4⟩ := h
  have e1 : a / 1000 = b / 1000 := by
    have hc := congrArg charVal h1
    rwa [charVal_digitChar _ (by omega), charVal_digitChar _ (by omega)] at hc
  have e2 : a / 100 % 10 = b / 100 % 10 := by
    have hc := congrArg charVal h2
    rwa [charVal_digitChar _ (by omega), charVal_digitChar _ (by omega)] at hc
  have e3 : a / 10 % 10 = b / 10 % 10 := by
    have hc := congrArg charVal h3
    rwa [charVal_digitChar _ (by omega), charVal_digitChar _ (by omega)] at hc
  have e4 : a % 10 = b % 10 := by
    have hc := congrArg charVal h4
    rwa [charVal_digitChar _ (by omega), charVal_digitChar _ (by omega)] at hc
  omega

theorem timestamp14_inj (t1 t2 : DateTime) (h1 : t1.valid) (h2 : t2.valid)
    (h : timestamp14 t1 = timestamp14 t2) : t1 = t2 := by
  obtain ⟨y1, mo1, d1, ho1, mi1, s1⟩ := t1
  obtain ⟨y2, mo2, d2, ho2, mi2, s2⟩ := t2
  simp only [DateTime.valid] at h1 h2
  obtain ⟨hy1, hy2, hmo1, hmo2, hd1, hd2, hh1, hmi1, hs1⟩ := h1
  obtain ⟨gy1, gy2, gmo1, gmo2, gd1, gd2, gh1, gmi1, gs1⟩ := h2
  unfold timestamp14 at h
  obtain ⟨h5, es⟩ := List.append_inj' h rfl
  obtain ⟨h4, emi⟩ := List.append_inj' h5 rfl
  obtain ⟨h3, eh⟩ := List.append_inj' h4 rfl
  obtain ⟨h2', ed⟩ := List.append_inj' h3 rfl
  obtain ⟨ey, emo⟩ := List.append_inj' h2' rfl
  simp only [DateTime.mk.injEq]
  refine ⟨pad4_inj _ _ (by omega) (by omega) ey,
    pad2_inj _ _ (by omega) (by omega) emo,
    pad2_inj _ _ (by omega) (by omega) ed,
    pad2_inj _ _ (by omega) (by omega) eh,
    pad2_inj _ _ (by omega) (by omega) emi,
    pad2_inj _ _ (by omega) (by omega) es⟩

theorem ref_number_inj (t1 t2 : DateTime) (h1 : t1.valid) (h2 : t2.valid)
    (h : ref_number t1 = ref_number t2) : t1 = t2 := by
  have hd : ("REF-".data ++ timestamp14 t1) = ("REF-".data ++ timestamp14 t2) := by
    have := congrArg String.data h
    simpa [ref_number, String.data_append] using this
  exact timestamp14_inj t1 t2 h1 h2 (List.append_cancel_left hd)

/-- Shape check for reference numbers: length 18, the literal prefix
characters R, E, F, hyphen, and 14 digit characters after them. -/
def isRefFormat (s : String) : Bool :=
  s.length == 18 && decide (s.data.take 4 = "REF-".data) &&
    (s.data.drop 4).all Char.isDigit

theorem pad2_digits (n : Nat) (h : n < 100) :
    ∀ c ∈ pad2 n, c.isDigit = true := by
  intro c hc
  simp only [pad2, List.mem_cons, List.not_mem_nil, or_false] at hc
  rcases hc with rfl | rfl
  · exact digitChar_isDigit _ (by omega)
  · exact digitChar_isDigit _ (by omega)

theorem pad4_digits (n : Nat) (h : n < 10000) :
    ∀ c ∈ pad4 n, c.isDigit = true := by
  intro c hc
  simp only [pad4, List.mem_cons, List.not_mem_nil, or_false] at hc
  rcases hc with rfl | rfl | rfl | rfl <;> exact digitChar_isDigit _ (by omega)

theorem ref_number_format (t : DateTime) (h : t.valid) :
    isRefFormat (ref_number t) = true := by
  obtain ⟨y, mo, d, ho, mi, s⟩ := t
  simp only [DateTime.valid] at h
  obtain ⟨hy1, hy2, hmo1, hmo2, hd1, hd2, hh1, hmi1, hs1⟩ := h
  have hchars : (ref_number ⟨y, mo, d, ho, mi, s⟩).data =
      'R' :: 'E' :: 'F' :: '-' ::
        (pad4 y ++ pad2 mo ++ pad2 d ++ pad2 ho ++ pad2 mi ++ pad2 s) := rfl
  have hlen : (ref_number ⟨y, mo, d, ho, mi, s⟩).length = 18 := by
    have : (ref_number ⟨y, mo, d, ho, mi, s⟩).length =
        (ref_number ⟨y, mo, d, ho, mi, s⟩).data.length := rfl
    rw [this, hchars]
    simp [pad4, pad2]
  simp only [isRefFormat, Bool.and_eq_true, beq_iff_eq, decide_eq_true_eq,
    List.all_eq_true, hchars, hlen]
  refine ⟨by simp, ?_⟩
  intro c hc
  simp only [List.drop_succ_cons, List.drop_zero, List.mem_append] at hc
  rcases hc with ((((hc | hc) | hc) | hc) | hc) | hc
  · exact pad4_digits y (by omega) c hc
  · exact pad2_digits mo (by omega) c hc
  · exact pad2_digits d (by omega) c hc
  · exact pad2_digits ho (by omega) c hc
  · exact pad2_digits mi (by omega) c hc
  · exact pad2_digits s (by omega) c hc

/-- C9: every reference number generated during resolution is "REF-"
followed by the 14-digit YYYYMMDDHHMMSS rendering of the wall clock
(recorded by `handle_resolution` as the reference), and wall clocks
differing in any second-resolution field yield distinct reference
numbers. -/
theorem ref_number_format_and_unique (t1 t2 : DateTime)
    (h1 : t1.valid) (h2 : t2.valid) (hne : t1 ≠ t2) :
    isRefFormat (ref_number t1) = true ∧
    ref_number t1 ≠ ref_number t2 ∧
    ∀ (ctx : Context) (end_ts : String),
      (handle_resolution ctx t1 end_ts none).1.reference_number =
        some (ref_number t1) :=
  ⟨ref_number_format t1 h1,
   fun hc => hne (ref_number_inj t1 t2 h1 h2 hc),
   fun ctx end_ts => by simp [handle_resolution]⟩

/-- C9 witness: two resolutions one second apart, with the recorded
reference instantiated at a concrete context. -/
theorem ref_number_format_and_unique_witness :
    isRefFormat (ref_number ⟨2025, 6, 30, 12, 0, 0⟩) = true ∧
    ref_number ⟨2025, 6, 30, 12, 0, 0⟩ ≠ ref_number ⟨2025, 6, 30, 12, 0, 1⟩ ∧
    (handle_resolution (initContext "t0") ⟨2025, 6, 30, 12, 0, 0⟩
        "2025-06-30T12:05:00" none).1.reference_number =
      some (ref_number ⟨2025, 6, 30, 12, 0, 0⟩) := by
  obtain ⟨w1, w2, w3⟩ := ref_number_format_and_unique
    ⟨2025, 6, 30, 12, 0, 0⟩ ⟨2025, 6, 30, 12, 0, 1⟩
    (by decide) (by decide) (by decide)
  exact ⟨w1, w2, w3 (initContext "t0") "2025-06-30T12:05:00"⟩

end DebtCollection
